import Mathlib

/-!
Verification of the longitudinal analysis engine
(`src/core/longitudinal_analyzer.py` of the med-gemma-hackathon repository).

Modelling conventions:
- Python floats are modelled as real numbers (`ℝ`); `datetime` values are
  modelled as integer day numbers (`ℤ`), so `(d2 - d1).days` becomes `d2 - d1`.
- Python truthiness tests on optional floats (`if x:`) are modelled explicitly:
  the value must be present and nonzero.
- Exceptions caught by the source (`ValueError`, `ZeroDivisionError`) are
  modelled as explicit guard branches returning `none`; a raising constructor
  would be an `Except` value.
- Decimal rendering of floats in f-strings is abstracted by deterministic
  formatting functions (`pyStr`, `fmtF0`, `fmtF1`, `fmtPlusF1`); no property
  proved here depends on the rendered digits, only on the branch structure of
  the generated text.
-/

open Real

-- =============================================================================
-- Enums and Constants
-- =============================================================================

/-- Classification of change trajectory (`ChangeTrajectory` enum). -/
inductive ChangeTrajectory where
  | IMPROVING
  | STABLE
  | WORSENING
  | INDETERMINATE
deriving DecidableEq

/-- Lung-RADS classification categories (`LungRADSCategory` enum). -/
inductive LungRADSCategory where
  | CATEGORY_0
  | CATEGORY_1
  | CATEGORY_2
  | CATEGORY_3
  | CATEGORY_4A
  | CATEGORY_4B
  | CATEGORY_4X
deriving DecidableEq

/-- Serialized string value of a Lung-RADS category (the enum `.value`). -/
def LungRADSCategory.value : LungRADSCategory → String
  | .CATEGORY_0 => "0"
  | .CATEGORY_1 => "1"
  | .CATEGORY_2 => "2"
  | .CATEGORY_3 => "3"
  | .CATEGORY_4A => "4A"
  | .CATEGORY_4B => "4B"
  | .CATEGORY_4X => "4X"

/-- Risk assessment levels (`RiskLevel` enum). -/
inductive RiskLevel where
  | LOW
  | INTERMEDIATE
  | HIGH
  | VERY_HIGH
deriving DecidableEq

/-- The ordinal rank of a risk tier: LOW < INTERMEDIATE < HIGH < VERY_HIGH. -/
def RiskLevel.rank : RiskLevel → ℕ
  | .LOW => 0
  | .INTERMEDIATE => 1
  | .HIGH => 2
  | .VERY_HIGH => 3

/-- Volume doubling time threshold (days): VDT below 400 days is concerning. -/
def VDT_HIGH_RISK : ℝ := 400

/-- Volume doubling time threshold (days): VDT in 400 to 600 is intermediate. -/
def VDT_INTERMEDIATE : ℝ := 600

-- =============================================================================
-- Data Classes
-- =============================================================================

/-- One nodule measurement at a single timepoint (`NoduleMeasurement`
dataclass). The source dataclass has defaults `nodule_type = "solid"`,
`volume_mm3 = None`, `morphology = None`; all fields are written explicitly
here. The dataclass generates a constructor that performs no validation. -/
structure NoduleMeasurement where
  date : ℤ
  size_mm : ℝ
  location : String
  nodule_type : String
  volume_mm3 : Option ℝ
  morphology : Option String

/-- Results of longitudinal change analysis (`ChangeAnalysis` dataclass).
All post-construction defaults of the source dataclass are supplied
explicitly by `analyze_longitudinal_change` below. `differential_evolution`
is a string-keyed dictionary in the source; it is never populated, and is
modelled as an association list. -/
structure ChangeAnalysis where
  size_change_mm : ℝ
  size_change_percent : ℝ
  volume_change_percent : ℝ
  days_between : ℤ
  volume_doubling_time_days : Option ℝ
  trajectory : ChangeTrajectory
  lung_rads_current : Option LungRADSCategory
  lung_rads_prior : Option LungRADSCategory
  risk_level : RiskLevel
  change_summary : String
  clinical_interpretation : String
  recommendations : List String
  differential_evolution : List (String × String)
  comparison_paragraph : String
  patient_summary : String

/-- One entry of the evolving differential diagnosis
(`DifferentialDiagnosis` dataclass). -/
structure DifferentialDiagnosis where
  diagnosis : String
  prior_probability : String
  current_probability : String
  change_rationale : String

/-- Complete longitudinal analysis report (`LongitudinalReport` dataclass).
The wall-clock default of `generated_at` (`datetime.now()`) is abstracted to
an integer timestamp fixed at 0; no claim depends on it. -/
structure LongitudinalReport where
  patient_context : String
  measurements : List NoduleMeasurement
  analysis : ChangeAnalysis
  differentials : List DifferentialDiagnosis
  timeline_summary : String
  generated_at : ℤ
  model_version : String
  disclaimer : String

-- =============================================================================
-- Numeric and date rendering (abstractions of Python string formatting)
-- =============================================================================

/-- Deterministic rendering of a real number, standing in for Python
`str(x)` on a float: the value rounded to tenths, as an integer string. -/
noncomputable def pyStr (x : ℝ) : String := toString (round (x * 10) : ℤ)

/-- Rendering for the `:.1f` format specifier. -/
noncomputable def fmtF1 (x : ℝ) : String := pyStr x

/-- Rendering for the `:+.1f` format specifier (explicit sign). -/
noncomputable def fmtPlusF1 (x : ℝ) : String :=
  if 0 ≤ x then "+" ++ pyStr x else pyStr x

/-- Rendering for the `:.0f` format specifier. -/
noncomputable def fmtF0 (x : ℝ) : String := toString (round x : ℤ)

/-- Rendering of the abstract integer date, standing in for
`strftime("%Y-%m-%d")` on the corresponding datetime. -/
def strftimeYMD (d : ℤ) : String := toString d

-- =============================================================================
-- Core Analysis Functions
-- =============================================================================

/-- Volume of a measurement (`NoduleMeasurement.volume_calculated` property):
the supplied `volume_mm3` when it is truthy (present and nonzero), otherwise
the sphere volume `(4/3)·π·(size_mm/2)³`. The Python guard is
`if self.volume_mm3:`, so a supplied volume of exactly 0 is falsy and falls
back to the sphere formula. -/
noncomputable def NoduleMeasurement.volume_calculated (m : NoduleMeasurement) : ℝ :=
  match m.volume_mm3 with
  | some v => if v ≠ 0 then v else (4 / 3) * Real.pi * (m.size_mm / 2) ^ 3
  | none => (4 / 3) * Real.pi * (m.size_mm / 2) ^ 3

/-- Volume doubling time between two measurements
(`calculate_volume_doubling_time`). The source computes both volumes, swaps
measurements and volumes together when supplied out of chronological order
(computing the volumes after the swap is the same), and guards: non-positive
elapsed days and non-growth return `None`; the `try` block returns `None`
when `v2 / v1` raises `ZeroDivisionError` (`v1 = 0`), when `math.log`
raises `ValueError` (non-positive ratio), or when the final division raises
`ZeroDivisionError` (zero logarithm). -/
noncomputable def calculate_volume_doubling_time
    (measurement1 measurement2 : NoduleMeasurement) : Option ℝ :=
  let q :=
    if measurement2.date < measurement1.date
    then (measurement2, measurement1)
    else (measurement1, measurement2)
  let v1 := q.1.volume_calculated
  let v2 := q.2.volume_calculated
  let days_between : ℤ := q.2.date - q.1.date
  if days_between ≤ 0 then none
  else if v2 ≤ v1 then none
  else if v1 = 0 then none
  else if v2 / v1 ≤ 0 then none
  else if Real.log (v2 / v1) = 0 then none
  else some ((days_between : ℝ) * Real.log 2 / Real.log (v2 / v1))

/-- Lung-RADS classification (`classify_lung_rads`). The 8 to 15 mm solid
branch tests `growth_detected and vdt_days and vdt_days < VDT_HIGH_RISK`:
by Python truthiness the supplied VDT must be present and nonzero. -/
noncomputable def classify_lung_rads
    (size_mm : ℝ) (nodule_type : String) (growth_detected : Bool)
    (vdt_days : Option ℝ) : LungRADSCategory :=
  if nodule_type = "solid" then
    if size_mm < 6 then .CATEGORY_2
    else if size_mm < 8 then
      if growth_detected then .CATEGORY_4A else .CATEGORY_3
    else if size_mm < 15 then
      match vdt_days with
      | some v =>
          if growth_detected = true ∧ v ≠ 0 ∧ v < VDT_HIGH_RISK
          then .CATEGORY_4B else .CATEGORY_4A
      | none => .CATEGORY_4A
    else .CATEGORY_4B
  else if nodule_type = "ground-glass" then
    if size_mm < 30 then .CATEGORY_2
    else if growth_detected then .CATEGORY_4A else .CATEGORY_3
  else if nodule_type = "part-solid" then
    if size_mm < 6 then .CATEGORY_2
    else if growth_detected then .CATEGORY_4B else .CATEGORY_4A
  else .CATEGORY_3

/-- Overall risk level (`assess_risk_level`). The VDT rules are tried first
(`if vdt_days:` is Python truthiness, so a VDT of `None` or exactly 0 skips
them); a known VDT of at least 600 days falls through to the Lung-RADS
rules, then the trajectory rule, then the LOW default. -/
noncomputable def assess_risk_level
    (vdt_days : Option ℝ) (lung_rads : LungRADSCategory)
    (trajectory : ChangeTrajectory) : RiskLevel :=
  let fallthrough : RiskLevel :=
    if lung_rads = .CATEGORY_4B then .VERY_HIGH
    else if lung_rads = .CATEGORY_4A then .HIGH
    else if lung_rads = .CATEGORY_3 then .INTERMEDIATE
    else if trajectory = .WORSENING then .HIGH
    else .LOW
  match vdt_days with
  | some v =>
      if v ≠ 0 then
        if v < 200 then .VERY_HIGH
        else if v < VDT_HIGH_RISK then .HIGH
        else if v < VDT_INTERMEDIATE then .INTERMEDIATE
        else fallthrough
      else fallthrough
  | none => fallthrough

/-- Change trajectory from percentage changes (`determine_trajectory`).
Volume change is the primary signal; the linear size change percentage is
accepted but unused, as in the source. -/
noncomputable def determine_trajectory
    (size_change_percent volume_change_percent : ℝ) : ChangeTrajectory :=
  if volume_change_percent > 25 then .WORSENING
  else if volume_change_percent < -25 then .IMPROVING
  else if |volume_change_percent| ≤ 25 then .STABLE
  else .INDETERMINATE

-- =============================================================================
-- Report Generation
-- =============================================================================

/-- Natural language change summary (`generate_change_summary`). Branches on
trajectory; the location falls back when empty (Python `or` on strings), and
the VDT sentence in the WORSENING branch requires a truthy VDT. -/
noncomputable def generate_change_summary
    (prior current : NoduleMeasurement) (analysis : ChangeAnalysis) : String :=
  let location := if current.location = "" then "the identified nodule" else current.location
  if analysis.trajectory = .STABLE then
    "The " ++ current.nodule_type ++ " nodule in " ++ location ++
      " remains stable, measuring " ++ pyStr current.size_mm ++ "mm (previously " ++
      pyStr prior.size_mm ++ "mm, " ++ fmtPlusF1 analysis.size_change_percent ++
      "% change over " ++ toString analysis.days_between ++ " days)."
  else if analysis.trajectory = .IMPROVING then
    "The " ++ current.nodule_type ++ " nodule in " ++ location ++
      " has decreased in size, now measuring " ++ pyStr current.size_mm ++
      "mm (previously " ++ pyStr prior.size_mm ++ "mm, " ++
      fmtF1 |analysis.size_change_percent| ++ "% reduction over " ++
      toString analysis.days_between ++ " days). This suggests interval improvement."
  else if analysis.trajectory = .WORSENING then
    let vdt_text :=
      match analysis.volume_doubling_time_days with
      | some v =>
          if v ≠ 0 then
            " Volume doubling time is approximately " ++ fmtF0 v ++ " days."
          else ""
      | none => ""
    "The " ++ current.nodule_type ++ " nodule in " ++ location ++
      " has demonstrated interval growth, now measuring " ++ pyStr current.size_mm ++
      "mm (previously " ++ pyStr prior.size_mm ++ "mm, " ++
      fmtPlusF1 analysis.size_change_percent ++ "% increase, " ++
      fmtPlusF1 analysis.volume_change_percent ++ "% volume increase over " ++
      toString analysis.days_between ++ " days)." ++ vdt_text
  else
    "Change assessment indeterminate. Current: " ++ pyStr current.size_mm ++
      "mm, Prior: " ++ pyStr prior.size_mm ++ "mm."

/-- Clinical interpretation text (`generate_clinical_interpretation`):
a VDT-tier sentence when the VDT is truthy, the current category and a
category-change note when a current category is present, and a risk-tier
sentence, joined with single spaces. -/
noncomputable def generate_clinical_interpretation (analysis : ChangeAnalysis) : String :=
  let vdtPart : List String :=
    match analysis.volume_doubling_time_days with
    | some vdt =>
        if vdt ≠ 0 then
          [if vdt < 200 then
            "Volume doubling time of " ++ fmtF0 vdt ++
              " days is concerning for rapid growth, highly suggestive of malignancy."
          else if vdt < VDT_HIGH_RISK then
            "Volume doubling time of " ++ fmtF0 vdt ++
              " days (<400 days) raises concern for malignancy."
          else if vdt < VDT_INTERMEDIATE then
            "Volume doubling time of " ++ fmtF0 vdt ++
              " days suggests intermediate growth rate."
          else
            "Volume doubling time of " ++ fmtF0 vdt ++
              " days suggests slower growth, though continued surveillance warranted."]
        else []
    | none => []
  let radsPart : List String :=
    match analysis.lung_rads_current with
    | some cur =>
        ("Current Lung-RADS category: " ++ cur.value ++ ".") ::
          (match analysis.lung_rads_prior with
           | some pr =>
               if pr ≠ cur then
                 ["Category has changed from " ++ pr.value ++ " to " ++ cur.value ++ "."]
               else []
           | none => [])
    | none => []
  let riskPart : List String :=
    [match analysis.risk_level with
     | .LOW => "Overall risk assessment: LOW."
     | .INTERMEDIATE => "Overall risk assessment: INTERMEDIATE."
     | .HIGH => "Overall risk assessment: HIGH - further evaluation recommended."
     | .VERY_HIGH => "Overall risk assessment: VERY HIGH - urgent evaluation recommended."]
  String.intercalate " " (vdtPart ++ radsPart ++ riskPart)

/-- Clinical recommendations (`generate_recommendations`): a risk-tier-keyed
list, with the fixed verification disclaimer appended at the end. -/
noncomputable def generate_recommendations (analysis : ChangeAnalysis) : List String :=
  let recommendations : List String :=
    if analysis.risk_level = .VERY_HIGH then
      ["Urgent tissue sampling or PET-CT recommended.",
       "Consider multidisciplinary tumor board discussion."]
    else if analysis.risk_level = .HIGH then
      ["Consider PET-CT for further characterization.",
       "If PET positive, tissue sampling recommended.",
       "Short-interval follow-up CT if PET not performed (3 months)."]
    else if analysis.risk_level = .INTERMEDIATE then
      if analysis.trajectory = .STABLE then
        ["Continue surveillance with follow-up CT in 6 months."]
      else
        ["Consider follow-up CT in 3 months to assess trajectory."]
    else
      if analysis.trajectory = .STABLE then
        ["Continue annual low-dose CT screening."]
      else if analysis.trajectory = .IMPROVING then
        ["Likely benign etiology. Follow-up CT in 12 months."]
      else []
  recommendations ++
    ["Clinical correlation recommended. This AI-generated analysis should be verified by a qualified radiologist."]

/-- Differential diagnosis evolution (`generate_differential_evolution`):
a fixed candidate set per trajectory; empty for INDETERMINATE. -/
noncomputable def generate_differential_evolution
    (analysis : ChangeAnalysis) : List DifferentialDiagnosis :=
  if analysis.trajectory = .WORSENING then
    [⟨"Primary lung malignancy", "moderate", "high",
      "Interval growth with VDT consistent with malignancy"⟩,
     ⟨"Inflammatory/infectious", "moderate", "low",
      "Would expect stability or resolution if infectious"⟩,
     ⟨"Slow-growing carcinoid", "low", "moderate",
      "Cannot exclude based on growth pattern"⟩]
  else if analysis.trajectory = .STABLE then
    [⟨"Benign granuloma", "moderate", "high",
      "Stability over time favors benign etiology"⟩,
     ⟨"Primary lung malignancy", "moderate", "low",
      "Stability decreases concern, though not excluded"⟩,
     ⟨"Hamartoma", "low", "moderate",
      "Benign tumor typically stable"⟩]
  else if analysis.trajectory = .IMPROVING then
    [⟨"Resolving infection", "moderate", "high",
      "Interval decrease consistent with resolving process"⟩,
     ⟨"Primary lung malignancy", "moderate", "very_low",
      "Spontaneous regression of malignancy extremely rare"⟩]
  else []

/-- Draft comparison paragraph (`generate_comparison_paragraph`). -/
noncomputable def generate_comparison_paragraph
    (prior current : NoduleMeasurement) (analysis : ChangeAnalysis) : String :=
  let prior_date := strftimeYMD prior.date
  if analysis.trajectory = .STABLE then
    "COMPARISON: CT Chest dated " ++ prior_date ++ "\n\n" ++
      "The previously identified " ++ pyStr prior.size_mm ++ "mm " ++
      prior.nodule_type ++ " nodule in the " ++ current.location ++
      " remains stable, now measuring " ++ pyStr current.size_mm ++ "mm. " ++
      "No significant interval change (" ++ fmtPlusF1 analysis.size_change_percent ++
      "% over " ++ toString analysis.days_between ++ " days). " ++
      "Continued surveillance recommended per Lung-RADS " ++
      (match analysis.lung_rads_current with
       | some c => c.value
       | none => "guidelines") ++ "."
  else if analysis.trajectory = .WORSENING then
    let vdt_text :=
      match analysis.volume_doubling_time_days with
      | some v =>
          if v ≠ 0 then
            " Volume doubling time is approximately " ++ fmtF0 v ++ " days."
          else ""
      | none => ""
    "COMPARISON: CT Chest dated " ++ prior_date ++ "\n\n" ++
      "The previously identified " ++ pyStr prior.size_mm ++ "mm " ++
      prior.nodule_type ++ " nodule in the " ++ current.location ++
      " has demonstrated interval growth, now measuring " ++ pyStr current.size_mm ++
      "mm (" ++ fmtPlusF1 analysis.size_change_percent ++ "% increase, " ++
      fmtPlusF1 analysis.volume_change_percent ++ "% volume increase over " ++
      toString analysis.days_between ++ " days)." ++ vdt_text ++ " " ++
      "This raises concern for malignancy. Recommend " ++
      (match analysis.recommendations with
       | r :: _ => r
       | [] => "further evaluation") ++ " per Lung-RADS " ++
      (match analysis.lung_rads_current with
       | some c => c.value
       | none => "4B") ++ " guidelines."
  else if analysis.trajectory = .IMPROVING then
    "COMPARISON: CT Chest dated " ++ prior_date ++ "\n\n" ++
      "The previously identified " ++ pyStr prior.size_mm ++ "mm " ++
      prior.nodule_type ++ " nodule in the " ++ current.location ++
      " has decreased in size, now measuring " ++ pyStr current.size_mm ++ "mm (" ++
      fmtF1 |analysis.size_change_percent| ++ "% decrease over " ++
      toString analysis.days_between ++ " days). " ++
      "Interval improvement suggests benign etiology. " ++
      "Follow-up imaging in 12 months recommended to document resolution."
  else
    "COMPARISON: CT Chest dated " ++ prior_date ++
      "\n\nIndeterminate change. Clinical correlation recommended."

/-- Patient-facing summary (`generate_patient_summary`). -/
noncomputable def generate_patient_summary
    (analysis : ChangeAnalysis) (current : NoduleMeasurement) : String :=
  if analysis.trajectory = .STABLE then
    "Your lung scan shows a small spot (" ++ pyStr current.size_mm ++
      "mm) that has not changed since your last scan. This is reassuring, " ++
      "as it suggests the spot is unlikely to be harmful. Your doctor " ++
      "recommends continuing to monitor it with regular scans."
  else if analysis.trajectory = .WORSENING then
    "Your lung scan shows a spot that has grown since your last scan (from " ++
      fmtF1 (current.size_mm - analysis.size_change_mm) ++ "mm to " ++
      pyStr current.size_mm ++ "mm). While this doesn\x27t definitely mean " ++
      "it\x27s cancer, your doctor will likely recommend additional tests to " ++
      "learn more about it. Please follow up with your healthcare team to " ++
      "discuss next steps."
  else if analysis.trajectory = .IMPROVING then
    "Good news - your lung scan shows a spot that has gotten smaller since " ++
      "your last scan (now " ++ pyStr current.size_mm ++ "mm). This usually " ++
      "means it was caused by something like an infection that is healing. " ++
      "Your doctor may recommend one more scan to confirm it continues to improve."
  else
    "Please discuss your scan results with your healthcare provider."

-- =============================================================================
-- Main Analysis Function
-- =============================================================================

/-- The body of `analyze_longitudinal_change` after its chronological swap:
computes metrics, VDT, trajectory, classifications and risk, constructs the
`ChangeAnalysis`, then fills the five generated text fields in the order the
source assigns them (so `generate_comparison_paragraph` sees the already-set
recommendation list, as in the source). -/
noncomputable def analyzeOrderedPair
    (prior_measurement current_measurement : NoduleMeasurement) : ChangeAnalysis :=
  let size_change_mm := current_measurement.size_mm - prior_measurement.size_mm
  let size_change_percent :=
    if prior_measurement.size_mm > 0
    then size_change_mm / prior_measurement.size_mm * 100 else 0
  let v_prior := prior_measurement.volume_calculated
  let v_current := current_measurement.volume_calculated
  let volume_change_percent :=
    if v_prior > 0 then (v_current - v_prior) / v_prior * 100 else 0
  let days_between : ℤ := current_measurement.date - prior_measurement.date
  let vdt := calculate_volume_doubling_time prior_measurement current_measurement
  let trajectory := determine_trajectory size_change_percent volume_change_percent
  let growth_detected : Bool := decide (trajectory = ChangeTrajectory.WORSENING)
  let lung_rads_prior :=
    classify_lung_rads prior_measurement.size_mm prior_measurement.nodule_type false none
  let lung_rads_current :=
    classify_lung_rads current_measurement.size_mm current_measurement.nodule_type
      growth_detected vdt
  let risk_level := assess_risk_level vdt lung_rads_current trajectory
  let analysis : ChangeAnalysis :=
    { size_change_mm := size_change_mm
      size_change_percent := size_change_percent
      volume_change_percent := volume_change_percent
      days_between := days_between
      volume_doubling_time_days := vdt
      trajectory := trajectory
      lung_rads_current := some lung_rads_current
      lung_rads_prior := some lung_rads_prior
      risk_level := risk_level
      change_summary := ""
      clinical_interpretation := ""
      recommendations := []
      differential_evolution := []
      comparison_paragraph := ""
      patient_summary := "" }
  let analysis :=
    { analysis with change_summary :=
        generate_change_summary prior_measurement current_measurement analysis }
  let analysis :=
    { analysis with clinical_interpretation :=
        generate_clinical_interpretation analysis }
  let analysis :=
    { analysis with recommendations := generate_recommendations analysis }
  let analysis :=
    { analysis with comparison_paragraph :=
        generate_comparison_paragraph prior_measurement current_measurement analysis }
  let analysis :=
    { analysis with patient_summary :=
        generate_patient_summary analysis current_measurement }
  analysis

/-- Comprehensive longitudinal change analysis (`analyze_longitudinal_change`).
The source first swaps the two measurements when the caller supplied them out
of chronological order, then runs the body (`analyzeOrderedPair`); the
clinical context parameter is accepted and unused, as in the source. -/
noncomputable def analyze_longitudinal_change
    (prior_measurement current_measurement : NoduleMeasurement)
    (clinical_context : Option String) : ChangeAnalysis :=
  let q :=
    if current_measurement.date < prior_measurement.date
    then (current_measurement, prior_measurement)
    else (prior_measurement, current_measurement)
  analyzeOrderedPair q.1 q.2

/-- Stable insertion into a date-sorted list: the inserted measurement goes
after every earlier-or-equal-dated one. -/
def insertByDate (m : NoduleMeasurement) :
    List NoduleMeasurement → List NoduleMeasurement
  | [] => [m]
  | y :: ys => if m.date < y.date then m :: y :: ys else y :: insertByDate m ys

/-- Stable sort of measurements by date, modelling Python
`sorted(measurements, key=lambda m: m.date)`. -/
def sortByDate (l : List NoduleMeasurement) : List NoduleMeasurement :=
  l.foldr insertByDate []

/-- Complete longitudinal report (`create_longitudinal_report`): raises
(`Except.error`) when fewer than two measurements are supplied, otherwise
sorts by date, analyzes the most recent pair, and assembles the report.
The final `match` arm is unreachable: sorting preserves the length, which
the guard has established to be at least two. -/
noncomputable def create_longitudinal_report
    (measurements : List NoduleMeasurement) (clinical_context : String) :
    Except String LongitudinalReport :=
  if measurements.length < 2 then
    .error "At least 2 measurements required for longitudinal analysis"
  else
    let ms := sortByDate measurements
    match ms.reverse with
    | current :: prior :: _ =>
        let analysis := analyze_longitudinal_change prior current (some clinical_context)
        let differentials := generate_differential_evolution analysis
        let timeline_summary :=
          String.intercalate "\n"
            ("TIMELINE:" ::
              ms.map (fun m =>
                "- " ++ strftimeYMD m.date ++ ": " ++ pyStr m.size_mm ++
                  "mm " ++ m.nodule_type ++ " nodule"))
        .ok
          { patient_context := clinical_context
            measurements := ms
            analysis := analysis
            differentials := differentials
            timeline_summary := timeline_summary
            generated_at := 0
            model_version := "radassist-pro-v1"
            disclaimer := "AI-generated analysis. For research purposes only. Not for clinical use." }
    | _ => .error "At least 2 measurements required for longitudinal analysis"

-- =============================================================================
-- Helper lemmas (shared)
-- =============================================================================

/-- Projection of the linear size delta out of the analysis body. -/
lemma analyzeOrderedPair_size_change_mm (p c : NoduleMeasurement) :
    (analyzeOrderedPair p c).size_change_mm = c.size_mm - p.size_mm := rfl

/-- Projection of the elapsed days out of the analysis body. -/
lemma analyzeOrderedPair_days_between (p c : NoduleMeasurement) :
    (analyzeOrderedPair p c).days_between = c.date - p.date := rfl

/-- Projection of the linear size delta percentage out of the analysis body,
including the division-by-zero guard of the source. -/
lemma analyzeOrderedPair_size_change_percent (p c : NoduleMeasurement) :
    (analyzeOrderedPair p c).size_change_percent =
      if p.size_mm > 0 then (c.size_mm - p.size_mm) / p.size_mm * 100 else 0 := rfl

-- =============================================================================
-- Claim C4 — trajectory totality
-- =============================================================================

/-- Claim C4: for every real-valued volume-change percentage the trajectory
is WORSENING exactly when it exceeds 25, IMPROVING exactly when it is below
-25, STABLE on the closed band between them, and the INDETERMINATE branch is
unreachable for every real input. -/
theorem determine_trajectory_total (s v : ℝ) :
    determine_trajectory s v =
      (if v > 25 then ChangeTrajectory.WORSENING
       else if v < -25 then ChangeTrajectory.IMPROVING
       else ChangeTrajectory.STABLE) ∧
    determine_trajectory s v ≠ ChangeTrajectory.INDETERMINATE := by
  unfold determine_trajectory
  by_cases h1 : v > 25
  · simp [h1]
  · by_cases h2 : v < -25
    · simp [h1, h2]
    · have habs : |v| ≤ 25 := abs_le.mpr ⟨not_lt.mp h2, not_lt.mp h1⟩
      simp [h1, h2, habs]

-- =============================================================================
-- Claim C9 — recommendation disclaimer
-- =============================================================================

/-- Claim C9: for every possible analysis the recommendation list is
non-empty and its last entry is the fixed clinical-correlation and
radiologist-verification disclaimer. -/
theorem generate_recommendations_disclaimer_last (analysis : ChangeAnalysis) :
    generate_recommendations analysis ≠ [] ∧
    (generate_recommendations analysis).getLast? =
      some "Clinical correlation recommended. This AI-generated analysis should be verified by a qualified radiologist." := by
  unfold generate_recommendations
  constructor
  · simp
  · exact List.getLast?_concat _

-- =============================================================================
-- Claim C10 — WORSENING trajectory never yields LOW risk
-- =============================================================================

/-- Claim C10: for every VDT value (including none) and every severity
category, a WORSENING trajectory never produces the LOW risk tier, because
the trajectory rule is checked before the LOW default. -/
theorem assess_risk_level_worsening_never_low
    (vdt : Option ℝ) (rads : LungRADSCategory) :
    assess_risk_level vdt rads ChangeTrajectory.WORSENING ≠ RiskLevel.LOW := by
  unfold assess_risk_level
  cases vdt with
  | none => split_ifs <;> simp_all
  | some v => split_ifs <;> simp_all <;> split_ifs <;> simp_all

-- =============================================================================
-- Claim C7 — volume fallback (corrected: a supplied 0 is falsy)
-- =============================================================================

/-- A measurement whose explicit volume is 0, the input on which claim C7
fails: the property tests `if self.volume_mm3:`, and 0.0 is falsy. -/
def mZeroVolume : NoduleMeasurement :=
  ⟨0, 2, "right upper lobe", "solid", some 0, none⟩

/-- Claim C7 counterexample: with a supplied volume of exactly 0 the
property does not return the supplied value; it falls back to the sphere
formula, whose value is nonzero. -/
theorem volume_calculated_zero_supplied_falls_back :
    mZeroVolume.volume_mm3 = some 0 ∧ mZeroVolume.volume_calculated ≠ 0 := by
  constructor
  · rfl
  · unfold NoduleMeasurement.volume_calculated mZeroVolume
    simp only
    norm_num
    positivity

/-- Claim C7 as amended: the property returns the supplied volume exactly
when one is present and nonzero; when the field is absent or holds 0 it
returns the sphere volume derived from the linear size. -/
theorem volume_calculated_cases (m : NoduleMeasurement) :
    (∀ v : ℝ, m.volume_mm3 = some v → v ≠ 0 → m.volume_calculated = v) ∧
    ((m.volume_mm3 = none ∨ m.volume_mm3 = some 0) →
      m.volume_calculated = 4 / 3 * Real.pi * (m.size_mm / 2) ^ 3) := by
  unfold NoduleMeasurement.volume_calculated
  constructor
  · intro v hv hne
    rw [hv]
    simp [hne]
  · rintro (h | h) <;> (rw [h]; try simp)

/-- A measurement with an explicit nonzero volume, used to witness the
amended claim C7 at a concrete input. -/
def mWithVolume : NoduleMeasurement :=
  ⟨0, 2, "right upper lobe", "solid", some 5, none⟩

/-- Witness for the amended claim C7: a present nonzero volume of 5 is
returned unchanged. -/
theorem volume_calculated_cases_witness : mWithVolume.volume_calculated = 5 :=
  (volume_calculated_cases mWithVolume).1 5 rfl (by norm_num)

-- =============================================================================
-- Claim C5 — solid-nodule Lung-RADS table (corrected: VDT of 0 is falsy)
-- =============================================================================

/-- Claim C5 counterexample: an 8 to 15 mm solid nodule with detected growth
and a supplied VDT of exactly 0 (which the claim includes among the values
below 400) is classified 4A, not 4B, because `vdt_days` equal to 0 fails the
Python truthiness test in the 4B condition. -/
theorem classify_lung_rads_zero_vdt_gives_4A :
    classify_lung_rads 10 "solid" true (some 0) = LungRADSCategory.CATEGORY_4A ∧
    LungRADSCategory.CATEGORY_4A ≠ LungRADSCategory.CATEGORY_4B := by
  constructor
  · unfold classify_lung_rads
    norm_num
  · simp

open Classical in
/-- The solid-morphology decision table as the code actually implements it,
with the Python truthiness of the VDT argument made explicit: in the 8 to
15 mm band, category 4B additionally requires the supplied VDT to be
present and nonzero. -/
noncomputable def classify_solid_spec
    (size_mm : ℝ) (growth_detected : Bool) (vdt_days : Option ℝ) :
    LungRADSCategory :=
  if size_mm < 6 then .CATEGORY_2
  else if size_mm < 8 then
    if growth_detected then .CATEGORY_4A else .CATEGORY_3
  else if size_mm < 15 then
    if growth_detected = true ∧ vdt_days.elim False (fun v => v ≠ 0 ∧ v < 400)
    then .CATEGORY_4B else .CATEGORY_4A
  else .CATEGORY_4B

/-- Claim C5 as amended: the solid classification follows the claimed table
except that the 8 to 15 mm growth branch yields 4B only when the supplied
VDT is present, nonzero, and below 400 days; a VDT of exactly 0 yields 4A. -/
theorem classify_lung_rads_solid_table
    (size : ℝ) (g : Bool) (vdt : Option ℝ) :
    classify_lung_rads size "solid" g vdt = classify_solid_spec size g vdt := by
  unfold classify_lung_rads classify_solid_spec VDT_HIGH_RISK
  rw [if_pos rfl]
  cases vdt with
  | none => split_ifs <;> simp_all
  | some v => split_ifs <;> simp_all

-- =============================================================================
-- Claim C6 — risk monotonicity in VDT (corrected: fails across 600 days)
-- =============================================================================

/-- A VDT below 200 days alone fixes the tier at VERY_HIGH. -/
lemma assess_risk_level_vdt_very_high
    (v : ℝ) (r : LungRADSCategory) (t : ChangeTrajectory)
    (h0 : 0 < v) (hv : v < 200) :
    assess_risk_level (some v) r t = RiskLevel.VERY_HIGH := by
  have hne : v ≠ 0 := ne_of_gt h0
  unfold assess_risk_level VDT_HIGH_RISK VDT_INTERMEDIATE
  split_ifs
  all_goals (dsimp only; rw [if_pos hne, if_pos hv])

/-- A VDT in the 200 to 400 day band alone fixes the tier at HIGH. -/
lemma assess_risk_level_vdt_high
    (v : ℝ) (r : LungRADSCategory) (t : ChangeTrajectory)
    (h0 : 200 ≤ v) (hv : v < 400) :
    assess_risk_level (some v) r t = RiskLevel.HIGH := by
  have hne : v ≠ 0 := by intro h; rw [h] at h0; linarith
  unfold assess_risk_level VDT_HIGH_RISK VDT_INTERMEDIATE
  split_ifs
  all_goals (dsimp only; rw [if_pos hne, if_neg (not_lt.mpr h0), if_pos hv])

/-- A VDT in the 400 to 600 day band alone fixes the tier at
INTERMEDIATE. -/
lemma assess_risk_level_vdt_intermediate
    (v : ℝ) (r : LungRADSCategory) (t : ChangeTrajectory)
    (h0 : 400 ≤ v) (hv : v < 600) :
    assess_risk_level (some v) r t = RiskLevel.INTERMEDIATE := by
  have hne : v ≠ 0 := by intro h; rw [h] at h0; linarith
  have h200 : ¬ v < 200 := not_lt.mpr (le_trans (by norm_num) h0)
  unfold assess_risk_level VDT_HIGH_RISK VDT_INTERMEDIATE
  split_ifs
  all_goals
    (dsimp only; rw [if_pos hne, if_neg h200, if_neg (not_lt.mpr h0), if_pos hv])

/-- Claim C6 counterexample: with category 4B and STABLE trajectory held
fixed, lowering the VDT from 700 to 500 days lowers the risk tier from
VERY_HIGH (the 4B fallthrough) to INTERMEDIATE, so decreasing VDT can
decrease the tier. -/
theorem assess_risk_level_not_monotone_across_600 :
    (500 : ℝ) ≤ 700 ∧ (0 : ℝ) < 500 ∧
    (assess_risk_level (some 500) LungRADSCategory.CATEGORY_4B
        ChangeTrajectory.STABLE).rank <
      (assess_risk_level (some 700) LungRADSCategory.CATEGORY_4B
        ChangeTrajectory.STABLE).rank := by
  refine ⟨by norm_num, by norm_num, ?_⟩
  have h5 :
      assess_risk_level (some 500) LungRADSCategory.CATEGORY_4B
        ChangeTrajectory.STABLE = RiskLevel.INTERMEDIATE := by
    unfold assess_risk_level VDT_HIGH_RISK VDT_INTERMEDIATE
    norm_num
  have h7 :
      assess_risk_level (some 700) LungRADSCategory.CATEGORY_4B
        ChangeTrajectory.STABLE = RiskLevel.VERY_HIGH := by
    unfold assess_risk_level VDT_HIGH_RISK VDT_INTERMEDIATE
    norm_num
  rw [h5, h7]
  simp [RiskLevel.rank]

/-- Claim C6 as amended: holding severity category and trajectory fixed,
decreasing the VDT never decreases the risk tier as long as the VDT stays
below the 600-day fallthrough boundary; once the VDT reaches 600 days the
tier is taken from the severity and trajectory rules instead, which can
exceed INTERMEDIATE. -/
theorem assess_risk_level_monotone_below_600
    (r : LungRADSCategory) (t : ChangeTrajectory) (v1 v2 : ℝ)
    (h2 : 0 < v2) (h21 : v2 ≤ v1) (h1 : v1 < 600) :
    (assess_risk_level (some v1) r t).rank ≤
      (assess_risk_level (some v2) r t).rank := by
  rcases lt_or_le v1 200 with a1 | a1
  · rw [assess_risk_level_vdt_very_high v1 r t (lt_of_lt_of_le h2 h21) a1,
      assess_risk_level_vdt_very_high v2 r t h2 (lt_of_le_of_lt h21 a1)]
  · rcases lt_or_le v1 400 with b1 | b1
    · rw [assess_risk_level_vdt_high v1 r t a1 b1]
      rcases lt_or_le v2 200 with a2 | a2
      · rw [assess_risk_level_vdt_very_high v2 r t h2 a2]
        simp [RiskLevel.rank]
      · rw [assess_risk_level_vdt_high v2 r t a2 (lt_of_le_of_lt h21 b1)]
    · rw [assess_risk_level_vdt_intermediate v1 r t b1 h1]
      rcases lt_or_le v2 200 with a2 | a2
      · rw [assess_risk_level_vdt_very_high v2 r t h2 a2]
        simp [RiskLevel.rank]
      · rcases lt_or_le v2 400 with b2 | b2
        · rw [assess_risk_level_vdt_high v2 r t a2 b2]
          simp [RiskLevel.rank]
        · rw [assess_risk_level_vdt_intermediate v2 r t b2
            (lt_of_le_of_lt h21 h1)]

/-- Witness for the amended claim C6 at concrete inputs: with category 2 and
STABLE trajectory, lowering the VDT from 500 to 250 days raises the tier
from INTERMEDIATE to HIGH. -/
theorem assess_risk_level_monotone_below_600_witness :
    (assess_risk_level (some 500) LungRADSCategory.CATEGORY_2
        ChangeTrajectory.STABLE).rank ≤
      (assess_risk_level (some 250) LungRADSCategory.CATEGORY_2
        ChangeTrajectory.STABLE).rank :=
  assess_risk_level_monotone_below_600 _ _ 500 250 (by norm_num) (by norm_num)
    (by norm_num)

-- =============================================================================
-- Claim C3 — volume doubling time formula
-- =============================================================================

/-- The behaviour claim C3 ascribes to `calculate_volume_doubling_time`:
chronological reorder, `none` on non-positive elapsed days, `none` on
non-growth, otherwise exactly `elapsed_days · ln 2 / ln (V_current/V_prior)`. -/
noncomputable def vdt_claimed (a b : NoduleMeasurement) : Option ℝ :=
  let p := if b.date < a.date then (b, a) else (a, b)
  let days : ℤ := p.2.date - p.1.date
  if days ≤ 0 then none
  else if p.2.volume_calculated ≤ p.1.volume_calculated then none
  else
    some ((days : ℝ) * Real.log 2 /
      Real.log (p.2.volume_calculated / p.1.volume_calculated))

/-- Claim C3: for measurements with positive volumes (which every
measurement satisfying the documented `size_mm > 0` invariant has), the
implemented VDT agrees with the claimed description: the exception guards
of the source are dead and the closed-form value is returned whenever the
interval is chronological and the volume grew. -/
theorem calculate_volume_doubling_time_matches_claim
    (a b : NoduleMeasurement)
    (ha : 0 < a.volume_calculated) (hb : 0 < b.volume_calculated) :
    calculate_volume_doubling_time a b = vdt_claimed a b := by
  unfold calculate_volume_doubling_time vdt_claimed
  by_cases hd : b.date < a.date
  · simp only [if_pos hd]
    split_ifs with g1 g2 g3 g4 g5 <;> try rfl
    · exact absurd g3 (ne_of_gt hb)
    · exact absurd g4 (not_le.mpr (div_pos (lt_trans hb (not_le.mp g2)) hb))
    · exact absurd g5
        (ne_of_gt (Real.log_pos ((one_lt_div hb).mpr (not_le.mp g2))))
  · simp only [if_neg hd]
    split_ifs with g1 g2 g3 g4 g5 <;> try rfl
    · exact absurd g3 (ne_of_gt ha)
    · exact absurd g4 (not_le.mpr (div_pos (lt_trans ha (not_le.mp g2)) ha))
    · exact absurd g5
        (ne_of_gt (Real.log_pos ((one_lt_div ha).mpr (not_le.mp g2))))

/-- A chronologically earlier measurement with positive sphere volume. -/
def mEarly : NoduleMeasurement := ⟨0, 2, "right upper lobe", "solid", none, none⟩

/-- A chronologically later, larger measurement with positive sphere
volume. -/
def mLate : NoduleMeasurement := ⟨10, 4, "right upper lobe", "solid", none, none⟩

/-- Witness for claim C3 at concrete measurements: both volumes are
positive, and the implementation agrees with the claimed description. -/
theorem calculate_volume_doubling_time_matches_claim_witness :
    0 < mEarly.volume_calculated ∧ 0 < mLate.volume_calculated ∧
    calculate_volume_doubling_time mEarly mLate = vdt_claimed mEarly mLate := by
  have ha : 0 < mEarly.volume_calculated := by
    unfold NoduleMeasurement.volume_calculated mEarly
    simp only
    positivity
  have hb : 0 < mLate.volume_calculated := by
    unfold NoduleMeasurement.volume_calculated mLate
    simp only
    positivity
  exact ⟨ha, hb, calculate_volume_doubling_time_matches_claim mEarly mLate ha hb⟩

-- =============================================================================
-- Claim C1 — ordering invariance of the full analysis (corrected)
-- =============================================================================

/-- Claim C1 as amended: the full analysis is invariant under swapping the
two measurements whenever their dates differ, because the engine reorders
them chronologically before computing anything; with equal dates no reorder
happens and the caller-supplied order is kept. -/
theorem analyze_order_invariant_of_distinct_dates
    (a b : NoduleMeasurement) (ctx : Option String) (h : a.date ≠ b.date) :
    analyze_longitudinal_change a b ctx = analyze_longitudinal_change b a ctx := by
  unfold analyze_longitudinal_change
  rcases lt_or_gt_of_ne h with h1 | h1
  · rw [if_neg (not_lt.mpr h1.le), if_pos h1]
  · rw [if_pos h1, if_neg (not_lt.mpr h1.le)]

/-- Witness for the amended claim C1 at concrete measurements with distinct
dates. -/
theorem analyze_order_invariant_of_distinct_dates_witness :
    analyze_longitudinal_change mEarly mLate none =
      analyze_longitudinal_change mLate mEarly none :=
  analyze_order_invariant_of_distinct_dates mEarly mLate none
    (by norm_num [mEarly, mLate])

/-- A measurement sharing its date with `mSameDayLarger` but smaller. -/
def mSameDaySmaller : NoduleMeasurement :=
  ⟨0, 5, "right upper lobe", "solid", none, none⟩

/-- A measurement sharing its date with `mSameDaySmaller` but larger. -/
def mSameDayLarger : NoduleMeasurement :=
  ⟨0, 10, "right upper lobe", "solid", none, none⟩

/-- Claim C1 counterexample: with equal dates the engine keeps the supplied
order, so the two call orders disagree — the size delta is +5 mm one way
and -5 mm the other. -/
theorem analyze_order_dependent_for_equal_dates :
    analyze_longitudinal_change mSameDaySmaller mSameDayLarger none ≠
      analyze_longitudinal_change mSameDayLarger mSameDaySmaller none := by
  have hA :
      (analyze_longitudinal_change mSameDaySmaller mSameDayLarger none).size_change_mm
        = 5 := by
    unfold analyze_longitudinal_change
    rw [if_neg (by norm_num [mSameDaySmaller, mSameDayLarger] :
      ¬ mSameDayLarger.date < mSameDaySmaller.date)]
    rw [analyzeOrderedPair_size_change_mm]
    norm_num [mSameDaySmaller, mSameDayLarger]
  have hB :
      (analyze_longitudinal_change mSameDayLarger mSameDaySmaller none).size_change_mm
        = -5 := by
    unfold analyze_longitudinal_change
    rw [if_neg (by norm_num [mSameDaySmaller, mSameDayLarger] :
      ¬ mSameDaySmaller.date < mSameDayLarger.date)]
    rw [analyzeOrderedPair_size_change_mm]
    norm_num [mSameDaySmaller, mSameDayLarger]
  intro h
  rw [h, hB] at hA
  norm_num at hA

-- =============================================================================
-- Claim C2 — no construction-time validation of size_mm (corrected)
-- =============================================================================

/-- A measurement with a negative size, constructible because the dataclass
validates nothing. -/
def mNegativeSize : NoduleMeasurement :=
  ⟨0, -1, "right upper lobe", "solid", none, none⟩

/-- A later well-formed measurement paired with `mNegativeSize`. -/
def mAfterNegative : NoduleMeasurement :=
  ⟨10, 5, "right upper lobe", "solid", none, none⟩

/-- Claim C2 counterexample: a measurement with `size_mm = -1` is
constructed without any error and is processed normally by the analysis
function, contradicting the claim that non-positive sizes are rejected at
construction time and never reach the analysis functions. -/
theorem nodule_measurement_negative_size_accepted :
    mNegativeSize.size_mm ≤ 0 ∧
    (analyze_longitudinal_change mNegativeSize mAfterNegative none).days_between
      = 10 := by
  constructor
  · norm_num [mNegativeSize]
  · unfold analyze_longitudinal_change
    rw [if_neg (by norm_num [mNegativeSize, mAfterNegative] :
      ¬ mAfterNegative.date < mNegativeSize.date)]
    rw [analyzeOrderedPair_days_between]
    norm_num [mNegativeSize, mAfterNegative]

/-- Claim C2 as amended: the dataclass constructor performs no validation —
it stores any `size_mm` unchanged, and a non-positive size flows into the
analysis, where only the division guard reacts to it by reporting a size
change percentage of 0. -/
theorem nodule_measurement_no_construction_validation
    (d d2 : ℤ) (s : ℝ) (l : String) (hs : s ≤ 0) (hd : d < d2) :
    (NoduleMeasurement.mk d s l "solid" none none).size_mm = s ∧
    (analyze_longitudinal_change (NoduleMeasurement.mk d s l "solid" none none)
        (NoduleMeasurement.mk d2 5 l "solid" none none) none).size_change_percent
      = 0 := by
  refine ⟨rfl, ?_⟩
  unfold analyze_longitudinal_change
  rw [if_neg (not_lt.mpr (le_of_lt hd))]
  rw [analyzeOrderedPair_size_change_percent]
  simp only
  rw [if_neg (not_lt.mpr hs)]

/-- Witness for the amended claim C2: the concrete negative-size measurement
is stored as given and yields a 0 percent size change downstream. -/
theorem nodule_measurement_no_construction_validation_witness :
    (NoduleMeasurement.mk 0 (-1) "right upper lobe" "solid" none none).size_mm
      = -1 ∧
    (analyze_longitudinal_change
        (NoduleMeasurement.mk 0 (-1) "right upper lobe" "solid" none none)
        (NoduleMeasurement.mk 10 5 "right upper lobe" "solid" none none)
        none).size_change_percent = 0 :=
  nodule_measurement_no_construction_validation 0 10 (-1) "right upper lobe"
    (by norm_num) (by norm_num)

-- =============================================================================
-- Claim C8 — report construction requires at least two measurements
-- =============================================================================

/-- Inserting into the date-sorted list grows it by exactly one element. -/
lemma insertByDate_length (m : NoduleMeasurement)
    (l : List NoduleMeasurement) :
    (insertByDate m l).length = l.length + 1 := by
  induction l with
  | nil => rfl
  | cons y ys ih =>
      unfold insertByDate
      split_ifs <;> simp [ih]

/-- Sorting by date preserves the number of measurements. -/
lemma sortByDate_length (l : List NoduleMeasurement) :
    (sortByDate l).length = l.length := by
  unfold sortByDate
  induction l with
  | nil => rfl
  | cons y ys ih =>
      simp only [List.foldr_cons, insertByDate_length, ih, List.length_cons]

/-- Claim C8: with fewer than two measurements the report constructor
raises immediately and produces no report value; with at least two it
returns a complete report. -/
theorem create_longitudinal_report_requires_two
    (measurements : List NoduleMeasurement) (ctx : String) :
    (measurements.length < 2 →
      ∃ e, create_longitudinal_report measurements ctx = .error e) ∧
    (2 ≤ measurements.length →
      ∃ r, create_longitudinal_report measurements ctx = .ok r) := by
  constructor
  · intro h
    refine ⟨"At least 2 measurements required for longitudinal analysis", ?_⟩
    unfold create_longitudinal_report
    rw [if_pos h]
  · intro h
    unfold create_longitudinal_report
    rw [if_neg (not_lt.mpr h)]
    dsimp only
    have hlen : (sortByDate measurements).reverse.length = measurements.length := by
      simp [sortByDate_length]
    rcases hrev : (sortByDate measurements).reverse with _ | ⟨c, _ | ⟨p, rest⟩⟩
    · rw [hrev] at hlen
      simp at hlen
      omega
    · rw [hrev] at hlen
      simp at hlen
      omega
    · exact ⟨_, rfl⟩

/-- Witness for claim C8: the empty list is rejected with an error, and a
concrete two-element list yields a report. -/
theorem create_longitudinal_report_requires_two_witness :
    (∃ e, create_longitudinal_report [] "" = .error e) ∧
    (∃ r, create_longitudinal_report [mEarly, mLate] "" = .ok r) :=
  ⟨(create_longitudinal_report_requires_two [] "").1 (by simp),
   (create_longitudinal_report_requires_two [mEarly, mLate] "").2 (by simp)⟩
